import Mathlib

/-!
Verification of the financial projection and historical-performance engine of the
Indian Mutual Fund Analyzer (src/app.py).

The arithmetic of the source (Python floats) is embedded over `ℚ` (with `ℝ` only
for the non-integer powers of the CAGR-style annualization); every formula is
transcribed from the corresponding lines of `src/app.py`.  The SIP calculator
(lines 362-378), the target-amount calculator (lines 468-478), the goal planner
(lines 508-611) and the performance analyzer over a NAV series
(lines 144-147, 184-191, 207-296) are modelled below.
-/

namespace MFMonitor

/-! ### SIP projection engine (src/app.py lines 362-378 and 468-478) -/

/-- Parameters of a SIP future-value projection: the widgets `monthly_investment`,
`annual_return` and `investment_years` of the SIP Calculator tab. -/
structure SipParameters where
  monthlyAmount : ℚ
  annualReturnPct : ℚ
  years : ℕ
deriving DecidableEq, Repr

/-- Parameters of a target-amount / goal computation: the widgets `target_amount`,
`target_years` and `expected_return` of the Target Amount tab (and of each goal
of the goal planner). -/
structure GoalParameters where
  targetAmount : ℚ
  years : ℕ
  annualReturnPct : ℚ
deriving DecidableEq, Repr

/-- `monthly_rate = annual_return / (12 * 100)` (src/app.py lines 362, 468, 579). -/
def monthly_rate (annualReturnPct : ℚ) : ℚ := annualReturnPct / (12 * 100)

/-- `total_months = years * 12` (src/app.py lines 363, 469, 580). -/
def total_months (years : ℕ) : ℕ := years * 12

/-- SIP future value, src/app.py lines 366-369:
`future_value = monthly_investment * (((1 + monthly_rate) ** total_months - 1) / monthly_rate) * (1 + monthly_rate)`
when `monthly_rate > 0`, else `monthly_investment * total_months`. -/
def future_value (p : SipParameters) : ℚ :=
  if monthly_rate p.annualReturnPct > 0 then
    p.monthlyAmount * (((1 + monthly_rate p.annualReturnPct) ^ total_months p.years - 1)
      / monthly_rate p.annualReturnPct) * (1 + monthly_rate p.annualReturnPct)
  else
    p.monthlyAmount * (total_months p.years : ℚ)

/-- `total_investment = monthly_investment * total_months` (src/app.py line 371). -/
def total_investment (p : SipParameters) : ℚ :=
  p.monthlyAmount * (total_months p.years : ℚ)

/-- `wealth_gained = future_value - total_investment` (src/app.py line 372). -/
def wealth_gained (p : SipParameters) : ℚ := future_value p - total_investment p

/-- Required monthly SIP for a target, src/app.py lines 472-475 (same formula at
lines 582-585 of the goal planner):
`required_sip = target_amount / ((((1 + monthly_rate) ** total_months - 1) / monthly_rate) * (1 + monthly_rate))`
when `monthly_rate > 0`, else `target_amount / total_months`. -/
def required_sip (g : GoalParameters) : ℚ :=
  if monthly_rate g.annualReturnPct > 0 then
    g.targetAmount / ((((1 + monthly_rate g.annualReturnPct) ^ total_months g.years - 1)
      / monthly_rate g.annualReturnPct) * (1 + monthly_rate g.annualReturnPct))
  else
    g.targetAmount / (total_months g.years : ℚ)

/-- The concrete SIP of the spec's first expected-output test. -/
def sampleSip : SipParameters := ⟨5000, 12, 10⟩

/-- The concrete goal of the spec's round-trip test. -/
def sampleGoal : GoalParameters := ⟨1000000, 10, 12⟩

/-! ### Goal planner (src/app.py lines 508-611) -/

/-- One selected goal of the goal planner: its name, the predefined parameters read
from the `goals` dict (src/app.py lines 515-523), and the effective parameters
produced by the customization widgets (lines 542-576; the widgets default to the
predefined values, so without customization `custom = defaults`). -/
structure SelectedGoal where
  name : String
  defaults : GoalParameters
  custom : GoalParameters
deriving DecidableEq, Repr

/-- One row of `goal_details` (src/app.py lines 589-595), built from the effective
(customized) parameters of the goal. -/
structure GoalDetail where
  goal : String
  targetAmount : ℚ
  years : ℕ
  expectedReturnPct : ℚ
  monthlySipRequired : ℚ
deriving DecidableEq, Repr

/-- The row appended for one goal by the loop body (src/app.py lines 589-595). -/
def goal_detail_row (g : SelectedGoal) : GoalDetail :=
  ⟨g.name, g.custom.targetAmount, g.custom.years, g.custom.annualReturnPct,
    required_sip g.custom⟩

/-- The goal-planner loop (src/app.py lines 535-595): starting from
`total_monthly_sip = 0` and `goal_details = []`, each selected goal adds the
required SIP of its effective parameters to the running total and appends its
breakdown row. -/
def plan_goals_loop (gs : List SelectedGoal) : ℚ × List GoalDetail :=
  gs.foldl (fun acc g => (acc.1 + required_sip g.custom, acc.2 ++ [goal_detail_row g]))
    (0, [])

/-- The accumulated `total_monthly_sip` (src/app.py lines 535, 587). -/
def total_monthly_sip (gs : List SelectedGoal) : ℚ := (plan_goals_loop gs).1

/-- `total_monthly_sip * 12`, the displayed Total Annual Investment (line 608). -/
def total_annual_investment (gs : List SelectedGoal) : ℚ := total_monthly_sip gs * 12

/-- `total_target = sum([goals[goal]["amount"] for goal in selected_goals])`
(src/app.py line 610): it reads the predefined `goals` dict — the defaults — not
the customized per-goal parameters. -/
def total_target (gs : List SelectedGoal) : ℚ :=
  (gs.map (fun g => g.defaults.targetAmount)).sum

/-- A concrete uncustomized goal (Dream Car, predefined row of the `goals` dict). -/
def goalCar : SelectedGoal := ⟨"Dream Car", ⟨1000000, 5, 12⟩, ⟨1000000, 5, 12⟩⟩

/-- A concrete uncustomized goal (Emergency Fund, predefined row of the dict). -/
def goalFund : SelectedGoal := ⟨"Emergency Fund", ⟨500000, 3, 8⟩, ⟨500000, 3, 8⟩⟩

/-- The Dream Car goal customized from the predefined 1000000 target to 2000000. -/
def customizedCar : SelectedGoal := ⟨"Dream Car", ⟨1000000, 5, 12⟩, ⟨2000000, 5, 12⟩⟩

/-! ### Performance analyzer over a NAV series (src/app.py lines 137-296) -/

/-- One row of the NAV dataframe after parsing and sorting (src/app.py
lines 137-141): a date, as an absolute day number, and the NAV. -/
structure NavObs where
  date : ℤ
  nav : ℚ
deriving DecidableEq, Repr

instance : Inhabited NavObs := ⟨⟨0, 0⟩⟩

/-- `inception_date = df['date'].iloc[0]` (src/app.py line 144). -/
def inception_date (df : List NavObs) : ℤ := (df.headD default).date

/-- `current_date = df['date'].iloc[-1]` (src/app.py line 145). -/
def current_date (df : List NavObs) : ℤ := (df.getLastD default).date

/-- `fund_age_days = (current_date - inception_date).days` (src/app.py line 146). -/
def fund_age_days (df : List NavObs) : ℤ := current_date df - inception_date df

/-- `fund_age_years = fund_age_days / 365.25` (src/app.py line 147). -/
def fund_age_years (df : List NavObs) : ℚ := (fund_age_days df : ℚ) / (365.25 : ℚ)

/-- `inception_nav = df['nav'].iloc[0]` (src/app.py line 184). -/
def inception_nav (df : List NavObs) : ℚ := (df.headD default).nav

/-- `current_nav = df['nav'].iloc[-1]` (src/app.py line 185). -/
def current_nav (df : List NavObs) : ℚ := (df.getLastD default).nav

/-- `total_return = ((current_nav - inception_nav) / inception_nav) * 100`
(src/app.py line 188). -/
def total_return (df : List NavObs) : ℚ :=
  (current_nav df - inception_nav df) / inception_nav df * 100

/-- The possible outcomes of the CAGR computation at src/app.py line 191: a
computed value, the Python `ZeroDivisionError` raised by `1/fund_age_years`, or
the `InsufficientDataError` of the specification's error taxonomy (which the
source has no machinery to signal). -/
inductive CagrOutcome where
  | ok (cagr : ℝ)
  | zeroDivisionError
  | insufficientDataError

/-- src/app.py line 191:
`cagr = (((current_nav / inception_nav) ** (1/fund_age_years)) - 1) * 100`.
In Python the subexpression `1/fund_age_years` raises `ZeroDivisionError` when
`fund_age_years` is zero; otherwise the power and the remaining arithmetic are
total. -/
noncomputable def cagr_attempt (df : List NavObs) : CagrOutcome :=
  if fund_age_years df = 0 then CagrOutcome.zeroDivisionError
  else CagrOutcome.ok
    ((((current_nav df / inception_nav df : ℚ) : ℝ) ^
      (((1 : ℚ) / fund_age_years df : ℚ) : ℝ) - 1) * 100)

/-- `df['nav']`, the NAV column of the dataframe. -/
def navs (df : List NavObs) : List ℚ := df.map NavObs.nav

/-- `df['rolling_max'] = df['nav'].expanding().max()` (src/app.py line 294):
entry `i` is the maximum of the first `i+1` NAVs. -/
def rolling_max (l : List ℚ) (i : ℕ) : ℚ := ((l.take (i + 1)).max?).getD 0

/-- `df['drawdown'] = (df['nav'] - df['rolling_max']) / df['rolling_max']`
(src/app.py line 295), entrywise at index `i`. -/
def drawdown (l : List ℚ) (i : ℕ) : ℚ :=
  (l.getD i 0 - rolling_max l i) / rolling_max l i

/-- `max_drawdown = df['drawdown'].min() * 100` (src/app.py line 296). -/
def max_drawdown (l : List ℚ) : ℚ :=
  ((((List.range l.length).map (fun i => drawdown l i)).min?).getD 0) * 100

/-- The fixed `time_periods` catalog (src/app.py lines 213-256). -/
def time_periods : List (ℕ × String) :=
  [(30, "1 Month"), (90, "3 Months"), (180, "6 Months"), (365, "1 Year"),
   (730, "2 Years"), (1095, "3 Years"), (1825, "5 Years"), (2190, "6 Years"),
   (2555, "7 Years"), (2920, "8 Years"), (3285, "9 Years"), (3650, "10 Years"),
   (4015, "11 Years"), (4380, "12 Years"), (4745, "13 Years"), (5110, "14 Years"),
   (5475, "15 Years"), (5840, "16 Years"), (6205, "17 Years"), (6570, "18 Years"),
   (6935, "19 Years"), (7300, "20 Years"), (7665, "21 Years"), (8030, "22 Years"),
   (8395, "23 Years"), (8760, "24 Years"), (9125, "25 Years"), (9490, "26 Years"),
   (9855, "27 Years"), (10220, "28 Years"), (10585, "29 Years"), (10950, "30 Years"),
   (11315, "31 Years"), (11680, "32 Years"), (12045, "33 Years"), (12410, "34 Years"),
   (12775, "35 Years"), (13140, "36 Years"), (13505, "37 Years"), (13870, "38 Years"),
   (14235, "39 Years"), (14600, "40 Years")]

/-- One row of the period-wise returns table: the label, the absolute return, and
the annualized return (`none` renders as the literal string N/A, line 276). -/
structure PeriodRow where
  period : String
  absoluteReturnPct : ℚ
  annualizedReturnPct : Option ℝ

/-- The annualized return of the loop body (src/app.py lines 265-266):
`years = days / 365.25`;
`annualized_return = (((current_nav / old_nav) ** (1/years)) - 1) * 100`. -/
noncomputable def annualized_return (currentNav oldNav : ℚ) (days : ℕ) : ℝ :=
  (((currentNav / oldNav : ℚ) : ℝ) ^ ((1 : ℝ) / ((days : ℝ) / 365.25)) - 1) * 100

/-- The body of the period-returns loop for one catalog entry (src/app.py
lines 260-277): `old_nav = df['nav'].iloc[-days-1]` (i.e. index
`len - days - 1`), `period_return = ((current_nav - old_nav) / old_nav) * 100`,
and the annualized column only for `days >= 365`. -/
noncomputable def period_row (df : List NavObs) (pd : ℕ × String) : PeriodRow :=
  let old_nav := (df.getD (df.length - pd.1 - 1) default).nav
  let period_return := (current_nav df - old_nav) / old_nav * 100
  if pd.1 ≥ 365 then
    ⟨pd.2, period_return, some (annualized_return (current_nav df) old_nav pd.1)⟩
  else
    ⟨pd.2, period_return, none⟩

/-- The period-returns loop (src/app.py lines 258-277): every catalog entry with
`len(df) > days` appends its row to `returns_data`; the others append nothing. -/
noncomputable def returns_data (df : List NavObs) : List PeriodRow :=
  time_periods.filterMap (fun pd =>
    if df.length > pd.1 then some (period_row df pd) else none)

/-- The `len(df) > 365` gate (src/app.py line 207) around the whole
period-returns table: the table is not computed at all on shorter series. -/
noncomputable def period_table (df : List NavObs) : Option (List PeriodRow) :=
  if df.length > 365 then some (returns_data df) else none

/-- One table row as the specification words it: for an included period,
`oldNav = series[len - dayOffset - 1].nav`,
`absoluteReturn = (current.nav - oldNav)/oldNav * 100`, and the annualized
return exists exactly when `dayOffset ≥ 365`, computed by the CAGR formula over
`dayOffset/365.25` years. -/
noncomputable def spec_row (df : List NavObs) (pd : ℕ × String) : PeriodRow :=
  let oldNav := (df.getD (df.length - pd.1 - 1) default).nav
  { period := pd.2
    absoluteReturnPct := (current_nav df - oldNav) / oldNav * 100
    annualizedReturnPct :=
      if 365 ≤ pd.1 then
        some ((((current_nav df / oldNav : ℚ) : ℝ) ^
          ((1 : ℝ) / ((pd.1 : ℝ) / 365.25)) - 1) * 100)
      else none }

/-- The period table as the specification words it: computed only when the series
has more than 365 points, over the fixed catalog with every period whose
`dayOffset ≥` series length skipped. -/
noncomputable def spec_period_table (df : List NavObs) : Option (List PeriodRow) :=
  if 365 < df.length then
    some ((time_periods.filter (fun pd => decide (pd.1 < df.length))).map (spec_row df))
  else none

/-- A one-point series: inception and current date coincide. -/
def sameDaySeries : List NavObs := [⟨100, 10⟩]

/-- A two-point ascending series. -/
def twoPointSeries : List NavObs := [⟨0, 10⟩, ⟨1, 12⟩]

/-- A three-point series whose NAV dips below its running maximum. -/
def dipSeries : List NavObs := [⟨0, 10⟩, ⟨1, 12⟩, ⟨2, 8⟩]

/-! ### Helper lemmas -/

lemma max?_getD_spec (l : List ℚ) (h : l ≠ []) :
    l.max?.getD 0 ∈ l ∧ ∀ b ∈ l, b ≤ l.max?.getD 0 := by
  haveI : Std.Antisymm (fun a b : ℚ => a ≤ b) := ⟨fun h1 h2 => le_antisymm h1 h2⟩
  cases hm : l.max? with
  | none => exact absurd (List.max?_eq_none_iff.mp hm) h
  | some m =>
    have := (List.max?_eq_some_iff (fun a => le_refl a) (fun a b => max_choice a b)
      (fun a b c => max_le_iff)).mp hm
    simpa using this

lemma min?_getD_le (l : List ℚ) (h : l ≠ []) : ∀ b ∈ l, l.min?.getD 0 ≤ b := by
  haveI : Std.Antisymm (fun a b : ℚ => a ≤ b) := ⟨fun h1 h2 => le_antisymm h1 h2⟩
  cases hm : l.min? with
  | none => exact absurd (List.min?_eq_none_iff.mp hm) h
  | some m =>
    have := (List.min?_eq_some_iff (fun a => le_refl a) (fun a b => min_choice a b)
      (fun a b c => le_min_iff)).mp hm
    simpa using this.2

lemma getLastD_mem (l : List NavObs) (h : l ≠ []) : l.getLastD default ∈ l := by
  rw [List.getLastD_eq_getLast?, List.getLast?_eq_getLast l h]
  exact List.getLast_mem h

lemma sorted_headD_le (l : List NavObs) (hs : l.Sorted (fun a b => a.date ≤ b.date))
    (a : NavObs) (ha : a ∈ l) : (l.headD default).date ≤ a.date := by
  cases l with
  | nil => simp at ha
  | cons x t =>
    rcases List.mem_cons.mp ha with rfl | hmem
    · simp
    · exact (List.pairwise_cons.mp hs).1 a hmem

lemma sorted_le_getLastD (l : List NavObs) (hs : l.Sorted (fun a b => a.date ≤ b.date))
    (a : NavObs) (ha : a ∈ l) : a.date ≤ (l.getLastD default).date := by
  induction l with
  | nil => simp at ha
  | cons x t ih =>
    have hx := List.pairwise_cons.mp hs
    cases t with
    | nil =>
      rcases List.mem_cons.mp ha with rfl | hmem
      · simp
      · simp at hmem
    | cons y u =>
      have hlast : (x :: y :: u).getLastD default = (y :: u).getLastD default := by
        rw [List.getLastD_eq_getLast?, List.getLastD_eq_getLast?,
          List.getLast?_eq_getLast (x :: y :: u) (by simp),
          List.getLast?_eq_getLast (y :: u) (by simp)]
        simp [List.getLast]
      rcases List.mem_cons.mp ha with rfl | hmem
      · rw [hlast]
        exact hx.1 _ (getLastD_mem (y :: u) (by simp))
      · rw [hlast]
        exact ih hx.2 hmem

lemma drawdown_nonpos_aux (l : List ℚ) (hpos : ∀ x ∈ l, 0 < x)
    (i : ℕ) (hi : i < l.length) : drawdown l i ≤ 0 := by
  have hne : l.take (i + 1) ≠ [] := by
    have : 0 < (l.take (i + 1)).length := by
      rw [List.length_take]; omega
    exact List.length_pos.mp this
  obtain ⟨hmax_mem, hmax_ub⟩ := max?_getD_spec (l.take (i + 1)) hne
  have hmpos : 0 < rolling_max l i :=
    hpos _ ((List.take_sublist (i + 1) l).subset hmax_mem)
  have hgd : l.getD i 0 = l[i] := List.getD_eq_getElem l 0 hi
  have hmem : l[i] ∈ l.take (i + 1) := by
    have h2 : i < (l.take (i + 1)).length := by
      rw [List.length_take]; omega
    have h3 : (l.take (i + 1))[i] = l[i] := List.getElem_take ..
    rw [← h3]
    exact List.getElem_mem h2
  have hle : l.getD i 0 ≤ rolling_max l i := by
    rw [hgd]; exact hmax_ub _ hmem
  rw [drawdown, div_nonpos_iff]
  right
  exact ⟨by linarith, hmpos.le⟩

lemma max_drawdown_nonpos_aux (l : List ℚ) (hpos : ∀ x ∈ l, 0 < x) (hne : l ≠ []) :
    max_drawdown l ≤ 0 := by
  have hlen : 0 < l.length := List.length_pos.mpr hne
  have h0 : drawdown l 0 ≤ 0 := drawdown_nonpos_aux l hpos 0 hlen
  have hmem : drawdown l 0 ∈ (List.range l.length).map (fun i => drawdown l i) :=
    List.mem_map_of_mem _ (List.mem_range.mpr hlen)
  have hlne : (List.range l.length).map (fun i => drawdown l i) ≠ [] := by
    have : 0 < ((List.range l.length).map (fun i => drawdown l i)).length := by
      simpa using hlen
    exact List.length_pos.mp this
  have hminle := min?_getD_le _ hlne _ hmem
  rw [max_drawdown]
  linarith

lemma returns_data_eq_filter_map (df : List NavObs) :
    returns_data df
      = (time_periods.filter (fun pd => decide (pd.1 < df.length))).map (period_row df) := by
  rw [returns_data]
  induction time_periods with
  | nil => rfl
  | cons a t ih =>
    rw [List.filterMap_cons, List.filter_cons]
    by_cases h : df.length > a.1
    · rw [if_pos h, if_pos (by simpa using h), List.map_cons, ih]
    · rw [if_neg h, if_neg (by simpa using h)]
      exact ih

lemma period_row_eq_spec_row (df : List NavObs) (pd : ℕ × String) :
    period_row df pd = spec_row df pd := by
  rw [period_row, spec_row, annualized_return]
  by_cases h : 365 ≤ pd.1
  · simp only [ge_iff_le, if_pos h]
  · simp only [ge_iff_le, if_neg h]

/-! ### Theorems for the SIP projection engine -/

/-- C1: with positive amount, positive rate and at least one year, `future_value`
returns the annuity-due value `amount * (((1+r)^n - 1)/r) * (1+r)` for
`r = annualReturnPct/1200`, `n = years*12`, and `total_investment` returns
`amount * n`; on the concrete input (5000, 12%, 10y) the totals are 600000 and,
within 1 unit, 1161695. -/
theorem future_value_annuity_due (p : SipParameters)
    (h1 : 0 < p.monthlyAmount) (h2 : 0 < p.annualReturnPct) (h3 : 1 ≤ p.years) :
    (future_value p = p.monthlyAmount *
        (((1 + p.annualReturnPct / 1200) ^ (p.years * 12) - 1) / (p.annualReturnPct / 1200)) *
        (1 + p.annualReturnPct / 1200)
      ∧ total_investment p = p.monthlyAmount * ((p.years * 12 : ℕ) : ℚ))
    ∧ total_investment sampleSip = 600000
    ∧ |future_value sampleSip - 1161695| ≤ 1 := by
  have hr : monthly_rate p.annualReturnPct > 0 := by
    unfold monthly_rate; positivity
  refine ⟨⟨?_, ?_⟩, ?_, ?_⟩
  · rw [future_value, if_pos hr]
    norm_num [monthly_rate, total_months]
  · rw [total_investment, total_months]
  · norm_num [total_investment, total_months, sampleSip]
  · have hfv : future_value sampleSip =
        5000 * (((1 + 12 / (12 * 100) : ℚ) ^ (120 : ℕ) - 1) / (12 / (12 * 100))) *
          (1 + 12 / (12 * 100)) := by
      rw [future_value, if_pos (by norm_num [monthly_rate, sampleSip])]
      norm_num [monthly_rate, total_months, sampleSip]
    rw [hfv, abs_le]
    constructor <;> norm_num

/-- Witness for `future_value_annuity_due` at the concrete input (5000, 12, 10). -/
theorem future_value_annuity_due_witness :
    (future_value sampleSip = 5000 *
        (((1 + 12 / 1200) ^ (10 * 12) - 1) / (12 / 1200)) * (1 + 12 / 1200)
      ∧ total_investment sampleSip = 5000 * ((10 * 12 : ℕ) : ℚ))
    ∧ total_investment sampleSip = 600000
    ∧ |future_value sampleSip - 1161695| ≤ 1 :=
  future_value_annuity_due sampleSip (by norm_num [sampleSip]) (by norm_num [sampleSip])
    (by norm_num [sampleSip])

/-- C6: at a zero annual rate the monthly rate is zero, so `future_value` takes the
simple-multiplication branch (`amount * n`, no division at all) and `required_sip`
takes the simple-division branch (`target / n`, whose divisor `n = years*12` is
nonzero when `years ≥ 1`); concretely (1000, 0%, 5y) gives exactly 60000. -/
theorem sip_zero_rate (p : SipParameters) (g : GoalParameters)
    (hp : p.annualReturnPct = 0) (hg : g.annualReturnPct = 0) (hgy : 1 ≤ g.years) :
    future_value p = p.monthlyAmount * ((p.years * 12 : ℕ) : ℚ)
    ∧ future_value ⟨1000, 0, 5⟩ = 60000
    ∧ required_sip g = g.targetAmount / ((g.years * 12 : ℕ) : ℚ)
    ∧ ((g.years * 12 : ℕ) : ℚ) ≠ 0 := by
  have hzn : ((g.years * 12 : ℕ) : ℚ) ≠ 0 := by
    have : (0 : ℕ) < g.years * 12 := by omega
    exact_mod_cast this.ne'
  refine ⟨?_, ?_, ?_, hzn⟩
  · rw [future_value, if_neg (by rw [hp]; norm_num [monthly_rate]), total_months]
  · rw [future_value, if_neg (by norm_num [monthly_rate])]
    norm_num [total_months]
  · rw [required_sip, if_neg (by rw [hg]; norm_num [monthly_rate]), total_months]

/-- Witness for `sip_zero_rate` at (1000, 0%, 5y) and the goal (720, 1y, 0%). -/
theorem sip_zero_rate_witness :
    future_value ⟨1000, 0, 5⟩ = 1000 * ((5 * 12 : ℕ) : ℚ)
    ∧ future_value ⟨1000, 0, 5⟩ = 60000
    ∧ required_sip ⟨720, 1, 0⟩ = 720 / ((1 * 12 : ℕ) : ℚ)
    ∧ ((1 * 12 : ℕ) : ℚ) ≠ 0 :=
  sip_zero_rate ⟨1000, 0, 5⟩ ⟨720, 1, 0⟩ rfl rfl (by norm_num)

/-- C2: the required monthly SIP for a target, fed back into the future-value
projection with the same years and rate, reproduces the target exactly (hence
within any floating tolerance). -/
theorem required_sip_round_trip (g : GoalParameters)
    (ht : 0 < g.targetAmount) (hy : 1 ≤ g.years) (hr : 0 ≤ g.annualReturnPct) :
    future_value ⟨required_sip g, g.annualReturnPct, g.years⟩ = g.targetAmount := by
  have hn : ((total_months g.years : ℕ) : ℚ) ≠ 0 := by
    have : 0 < total_months g.years := by unfold total_months; omega
    exact_mod_cast this.ne'
  by_cases hpos : monthly_rate g.annualReturnPct > 0
  · have h1 : (1 : ℚ) < 1 + monthly_rate g.annualReturnPct := by linarith
    have hnz : total_months g.years ≠ 0 := by unfold total_months; omega
    have hpow : 1 < (1 + monthly_rate g.annualReturnPct) ^ total_months g.years :=
      one_lt_pow₀ h1 hnz
    have hX : 0 < ((1 + monthly_rate g.annualReturnPct) ^ total_months g.years - 1)
        / monthly_rate g.annualReturnPct := div_pos (by linarith) hpos
    have hY : (0 : ℚ) < 1 + monthly_rate g.annualReturnPct := by linarith
    simp only [future_value, required_sip, if_pos hpos]
    rw [mul_assoc]
    exact div_mul_cancel₀ _ (mul_pos hX hY).ne'
  · simp only [future_value, required_sip, if_neg hpos]
    exact div_mul_cancel₀ _ hn

/-- Witness for `required_sip_round_trip` at the goal (1000000, 10y, 12%). -/
theorem required_sip_round_trip_witness :
    future_value ⟨required_sip sampleGoal, sampleGoal.annualReturnPct, sampleGoal.years⟩ =
      sampleGoal.targetAmount :=
  required_sip_round_trip sampleGoal (by norm_num [sampleGoal]) (by norm_num [sampleGoal])
    (by norm_num [sampleGoal])

/-- C10: for a positive amount, at least one year and a nonnegative rate, the
projected future value is at least the total invested, so the wealth gained is
nonnegative, the invested total is positive, and the wealth-gained ratio
`future_value / total_investment - 1` is well defined and nonnegative. -/
theorem future_value_ge_invested (p : SipParameters)
    (ha : 0 < p.monthlyAmount) (hy : 1 ≤ p.years) (hr : 0 ≤ p.annualReturnPct) :
    total_investment p ≤ future_value p
    ∧ 0 ≤ wealth_gained p
    ∧ 0 < total_investment p
    ∧ 0 ≤ future_value p / total_investment p - 1 := by
  have hnpos : (0 : ℚ) < ((total_months p.years : ℕ) : ℚ) := by
    have : 0 < total_months p.years := by unfold total_months; omega
    exact_mod_cast this
  have hti : 0 < total_investment p := by
    rw [total_investment]; exact mul_pos ha hnpos
  have hle : total_investment p ≤ future_value p := by
    by_cases hpos : monthly_rate p.annualReturnPct > 0
    · rw [future_value, if_pos hpos, total_investment]
      have hbern : 1 + (total_months p.years : ℚ) * monthly_rate p.annualReturnPct ≤
          (1 + monthly_rate p.annualReturnPct) ^ total_months p.years :=
        one_add_mul_le_pow (by linarith) (total_months p.years)
      have hX : ((total_months p.years : ℕ) : ℚ) ≤
          ((1 + monthly_rate p.annualReturnPct) ^ total_months p.years - 1)
            / monthly_rate p.annualReturnPct := by
        rw [le_div_iff₀ hpos]
        linarith
      have hfac : ((total_months p.years : ℕ) : ℚ) * 1 ≤
          (((1 + monthly_rate p.annualReturnPct) ^ total_months p.years - 1)
            / monthly_rate p.annualReturnPct) * (1 + monthly_rate p.annualReturnPct) :=
        mul_le_mul hX (by linarith) zero_le_one (le_trans hnpos.le hX)
      rw [mul_assoc]
      have := mul_le_mul_of_nonneg_left (le_trans (le_of_eq (mul_one _).symm) hfac) ha.le
      exact this
    · rw [future_value, if_neg hpos, total_investment]
  refine ⟨hle, by rw [wealth_gained]; linarith, hti, ?_⟩
  have : 1 ≤ future_value p / total_investment p := (one_le_div hti).mpr hle
  linarith

/-- Witness for `future_value_ge_invested` at the concrete input (5000, 12, 10). -/
theorem future_value_ge_invested_witness :
    total_investment sampleSip ≤ future_value sampleSip
    ∧ 0 ≤ wealth_gained sampleSip
    ∧ 0 < total_investment sampleSip
    ∧ 0 ≤ future_value sampleSip / total_investment sampleSip - 1 :=
  future_value_ge_invested sampleSip (by norm_num [sampleSip]) (by norm_num [sampleSip])
    (by norm_num [sampleSip])

/-! ### Theorems for the goal planner -/

lemma plan_goals_loop_go (gs : List SelectedGoal) (s : ℚ) (d : List GoalDetail) :
    gs.foldl (fun acc g => (acc.1 + required_sip g.custom, acc.2 ++ [goal_detail_row g]))
        (s, d)
      = (s + (gs.map (fun g => required_sip g.custom)).sum, d ++ gs.map goal_detail_row) := by
  induction gs generalizing s d with
  | nil => simp
  | cons a t ih => simp [ih, add_assoc]

lemma plan_goals_loop_eq (gs : List SelectedGoal) :
    plan_goals_loop gs
      = ((gs.map (fun g => required_sip g.custom)).sum, gs.map goal_detail_row) := by
  rw [plan_goals_loop, plan_goals_loop_go]
  simp

/-- C7: the planner's total monthly SIP is the sum of `required_sip` applied
independently to each goal's effective parameters, the annual total is twelve
times the monthly total, each breakdown row is a function of its own goal alone
(the details list is a plain map), and permuting the goals changes neither the
monthly total nor the annual total nor the combined target. -/
theorem plan_goals_independent (gs gs2 : List SelectedGoal) (hperm : gs.Perm gs2) :
    total_monthly_sip gs = (gs.map (fun g => required_sip g.custom)).sum
    ∧ total_annual_investment gs = 12 * total_monthly_sip gs
    ∧ (plan_goals_loop gs).2 = gs.map goal_detail_row
    ∧ total_monthly_sip gs = total_monthly_sip gs2
    ∧ total_annual_investment gs = total_annual_investment gs2
    ∧ total_target gs = total_target gs2 := by
  have hsum : total_monthly_sip gs = total_monthly_sip gs2 := by
    rw [total_monthly_sip, total_monthly_sip, plan_goals_loop_eq, plan_goals_loop_eq]
    exact (hperm.map (fun g => required_sip g.custom)).sum_eq
  refine ⟨?_, ?_, ?_, hsum, ?_, ?_⟩
  · rw [total_monthly_sip, plan_goals_loop_eq]
  · rw [total_annual_investment, mul_comm]
  · rw [plan_goals_loop_eq]
  · rw [total_annual_investment, total_annual_investment, hsum]
  · exact (hperm.map (fun g => g.defaults.targetAmount)).sum_eq

/-- Witness for `plan_goals_independent` on the two-goal plan [Dream Car,
Emergency Fund] against its swap. -/
theorem plan_goals_independent_witness :
    total_monthly_sip [goalCar, goalFund]
        = ([goalCar, goalFund].map (fun g => required_sip g.custom)).sum
    ∧ total_annual_investment [goalCar, goalFund] = 12 * total_monthly_sip [goalCar, goalFund]
    ∧ (plan_goals_loop [goalCar, goalFund]).2 = [goalCar, goalFund].map goal_detail_row
    ∧ total_monthly_sip [goalCar, goalFund] = total_monthly_sip [goalFund, goalCar]
    ∧ total_annual_investment [goalCar, goalFund] = total_annual_investment [goalFund, goalCar]
    ∧ total_target [goalCar, goalFund] = total_target [goalFund, goalCar] :=
  plan_goals_independent [goalCar, goalFund] [goalFund, goalCar]
    (List.Perm.swap goalFund goalCar [])

/-- C4 (code bug): with the Dream Car goal customized to a 2000000 target, the
planner's Combined Target Amount is still the predefined 1000000 — it does not
equal the sum (2000000) of the effective targets that the required-SIP column and
the breakdown rows are computed from. -/
theorem total_target_ignores_customization :
    total_target [customizedCar] = 1000000
    ∧ ([customizedCar].map (fun g => g.custom.targetAmount)).sum = 2000000
    ∧ (goal_detail_row customizedCar).targetAmount = 2000000
    ∧ (goal_detail_row customizedCar).monthlySipRequired = required_sip ⟨2000000, 5, 12⟩
    ∧ total_target [customizedCar]
        ≠ ([customizedCar].map (fun g => g.custom.targetAmount)).sum := by
  refine ⟨?_, ?_, rfl, rfl, ?_⟩
  · norm_num [total_target, customizedCar]
  · norm_num [customizedCar]
  · norm_num [total_target, customizedCar]

/-! ### Theorems for the performance analyzer -/

/-- C8: on a date-sorted series with at least two points, the inception row is the
earliest and the current row the latest observation, and the total return equals
`(last.nav - first.nav) / first.nav * 100` within tolerance `1e-9` (exactly, in
this rational model). -/
theorem total_return_first_last (df : List NavObs)
    (hlen : 2 ≤ df.length) (hs : df.Sorted (fun a b => a.date ≤ b.date)) :
    (∀ a ∈ df, inception_date df ≤ a.date ∧ a.date ≤ current_date df)
    ∧ |total_return df
        - ((df.getLastD default).nav - (df.headD default).nav)
          / (df.headD default).nav * 100|
      ≤ 1 / 1000000000 := by
  constructor
  · intro a ha
    exact ⟨sorted_headD_le df hs a ha, sorted_le_getLastD df hs a ha⟩
  · rw [total_return, current_nav, inception_nav]
    rw [sub_self, abs_zero]
    norm_num

/-- Witness for `total_return_first_last` on the two-point series. -/
theorem total_return_first_last_witness :
    (inception_date twoPointSeries ≤ (⟨1, 12⟩ : NavObs).date
      ∧ (⟨1, 12⟩ : NavObs).date ≤ current_date twoPointSeries)
    ∧ |total_return twoPointSeries
        - ((twoPointSeries.getLastD default).nav - (twoPointSeries.headD default).nav)
          / (twoPointSeries.headD default).nav * 100|
      ≤ 1 / 1000000000 :=
  ⟨(total_return_first_last twoPointSeries (by decide) (by decide)).1 ⟨1, 12⟩ (by decide),
   (total_return_first_last twoPointSeries (by decide) (by decide)).2⟩

/-- C9: when every NAV of the series is positive, each drawdown entry
`(nav[i] - runningMax) / runningMax` is nonpositive, and consequently the
maximum-drawdown percentage (the minimum drawdown times 100) is nonpositive. -/
theorem drawdown_nonpos (df : List NavObs) (hpos : ∀ o ∈ df, 0 < o.nav) :
    (∀ i < (navs df).length, drawdown (navs df) i ≤ 0)
    ∧ (df ≠ [] → max_drawdown (navs df) ≤ 0) := by
  have hp : ∀ x ∈ navs df, 0 < x := by
    intro x hx
    rcases List.mem_map.mp hx with ⟨o, ho, rfl⟩
    exact hpos o ho
  refine ⟨fun i hi => drawdown_nonpos_aux _ hp i hi, fun hne => ?_⟩
  refine max_drawdown_nonpos_aux _ hp ?_
  rw [navs]
  simpa using hne

/-- Witness for `drawdown_nonpos` on the dipping three-point series. -/
theorem drawdown_nonpos_witness :
    drawdown (navs dipSeries) 2 ≤ 0 ∧ max_drawdown (navs dipSeries) ≤ 0 :=
  ⟨(drawdown_nonpos dipSeries (by decide)).1 2 (by decide),
   (drawdown_nonpos dipSeries (by decide)).2 (by decide)⟩

/-- C3 counterexample: on a series whose inception and current date coincide, the
fund age is zero (hence ≤ 0), and the CAGR line fails with the Python
`ZeroDivisionError` from `1/fund_age_years` — which is not the signalled
`InsufficientDataError` the claim asserts. -/
theorem cagr_zero_division_not_signalled :
    fund_age_years sameDaySeries ≤ 0
    ∧ cagr_attempt sameDaySeries = CagrOutcome.zeroDivisionError
    ∧ CagrOutcome.zeroDivisionError ≠ CagrOutcome.insufficientDataError := by
  have h0 : fund_age_years sameDaySeries = 0 := by
    simp [fund_age_years, fund_age_days, current_date, inception_date, sameDaySeries]
  refine ⟨le_of_eq h0, ?_, ?_⟩
  · rw [cagr_attempt, if_pos h0]
  · intro h
    exact CagrOutcome.noConfusion h

/-- C3 amended: on a date-sorted nonempty series, a nonpositive fund age happens
exactly when the inception date equals the current date, and there the CAGR
computation of src/app.py line 191 raises an (unsignalled) division-by-zero
instead of producing a value; no `InsufficientDataError` is signalled because the
source has no such machinery. -/
theorem cagr_zero_age_division_error (df : List NavObs)
    (hs : df.Sorted (fun a b => a.date ≤ b.date)) (hne : df ≠ [])
    (h0 : fund_age_years df ≤ 0) :
    inception_date df = current_date df
    ∧ cagr_attempt df = CagrOutcome.zeroDivisionError := by
  have hmono : inception_date df ≤ current_date df := by
    rw [inception_date, current_date]
    exact sorted_headD_le df hs _ (getLastD_mem df hne)
  have hdq : (fund_age_days df : ℚ) ≤ 0 := by
    rw [fund_age_years] at h0
    rcases div_nonpos_iff.mp h0 with ⟨hd, hc⟩ | ⟨hd, hc⟩
    · exfalso; norm_num at hc
    · exact hd
  have hdays : fund_age_days df ≤ 0 := by exact_mod_cast hdq
  have heq : inception_date df = current_date df := by
    rw [fund_age_days] at hdays
    omega
  have hy0 : fund_age_years df = 0 := by
    rw [fund_age_years, fund_age_days, heq]
    simp
  exact ⟨heq, by rw [cagr_attempt, if_pos hy0]⟩

/-- Witness for `cagr_zero_age_division_error` on the one-point series. -/
theorem cagr_zero_age_division_error_witness :
    inception_date sameDaySeries = current_date sameDaySeries
    ∧ cagr_attempt sameDaySeries = CagrOutcome.zeroDivisionError :=
  cagr_zero_age_division_error sameDaySeries (by decide) (by decide)
    (by simp [fund_age_years, fund_age_days, current_date, inception_date, sameDaySeries])

/-- C5: the period-wise return table of the source agrees with the table the
specification describes, on every series: it exists exactly when the series has
more than 365 points; catalog periods with `dayOffset ≥` series length are
skipped; each included row reads `oldNav = series[len - dayOffset - 1].nav`,
reports `(current.nav - oldNav)/oldNav * 100`, and annualizes via the CAGR
formula over `dayOffset/365.25` years exactly when `dayOffset ≥ 365`. -/
theorem period_table_matches_spec (df : List NavObs) :
    period_table df = spec_period_table df := by
  rw [period_table, spec_period_table]
  by_cases h : 365 < df.length
  · rw [if_pos h, if_pos h, returns_data_eq_filter_map]
    exact congrArg some (List.map_congr_left (fun pd _ => period_row_eq_spec_row df pd))
  · rw [if_neg h, if_neg h]

end MFMonitor
